import Mathlib

/-
Shallow embedding of src/lib/tsc-watch.js (the watcher core of tsc-watch).

The repository's sibling modules (args-manager, stdout-manipulator, runner) are
thin collaborators of the core file: the line classifier `detectState` is
abstracted by taking a `ClassificationResult` per line as input, argument
extraction by explicit parameters, and process spawning / killing by trace
actions.  Line numbers in the doc comments refer to src/lib/tsc-watch.js.
-/

namespace TscWatch

/-- Result of `detectState(line)` from the stdout manipulator: the four fields
the line handler reads at lines 119-122 and 126. -/
structure ClassificationResult where
  compilationStarted : Bool
  compilationError : Bool
  compilationComplete : Bool
  fileEmitted : Option String
deriving DecidableEq

/-- The five hook kinds, one per `onXCommand` option (lines 18-23). -/
inductive HookKind where
  | firstSuccess
  | success
  | failure
  | compilationStarted
  | compilationComplete
deriving DecidableEq

/-- Messages sent through `Signal` (lines 194-201). -/
inductive EventMessage where
  | started
  | firstSuccess
  | success
  | compileErrors
  | fileEmitted (path : String)
deriving DecidableEq

/-- One observable side effect of the line handler: a `Signal` emission, or a
kill-then-spawn restart of a hook command (the body of `runOnXCommand`, lines
55-83, which restarts only when the corresponding command is configured). -/
inductive Action where
  | emit (m : EventMessage)
  | restartHook (k : HookKind)
deriving DecidableEq

/-- Which of the five hook commands were configured via `extractArgs`
(lines 18-30). -/
structure Config where
  onFirstSuccessCommand : Bool
  onSuccessCommand : Bool
  onFailureCommand : Bool
  onCompilationStarted : Bool
  onCompilationComplete : Bool
deriving DecidableEq

/-- The two mutable flags of the line handler: `firstTime` (line 11) and
`compilationErrorSinceStart` (line 104). -/
structure WatcherState where
  firstTime : Bool
  compilationErrorSinceStart : Bool
deriving DecidableEq

/-- Initial state: `firstTime = true` and `compilationErrorSinceStart = false`. -/
def WatcherState.init : WatcherState := ⟨true, false⟩

/-- Line 124: `compilationErrorSinceStart =
(!compilationStarted && compilationErrorSinceStart) || compilationError`. -/
def stepFlag (f : Bool) (c : ClassificationResult) : Bool :=
  (!c.compilationStarted && f) || c.compilationError

/-- Lines 126-128: if `state.fileEmitted !== null` then
`Signal.emitFile(state.fileEmitted)`. -/
def fileActs (c : ClassificationResult) : List Action :=
  match c.fileEmitted with
  | some p => [Action.emit (EventMessage.fileEmitted p)]
  | none => []

/-- Lines 130-133: on `compilationStarted`, `runOnCompilationStarted()` (a
restart when `onCompilationStarted` is configured, lines 55-59), then
`Signal.emitStarted()`. -/
def startActs (cfg : Config) (c : ClassificationResult) : List Action :=
  if c.compilationStarted then
    (if cfg.onCompilationStarted then [Action.restartHook HookKind.compilationStarted]
     else [])
      ++ [Action.emit EventMessage.started]
  else []

/-- Lines 135-151: on `compilationComplete`, `runOnCompilationComplete()`; then
either the failure branch (`Signal.emitFail()` then `runOnFailureCommand()`) or
the success branch (on the first time `Signal.emitFirstSuccess()` then
`runOnFirstSuccessCommand()`, then unconditionally `Signal.emitSuccess()` and
`runOnSuccessCommand()`). -/
def completeActs (cfg : Config) (firstTime errFlag : Bool) : List Action :=
  (if cfg.onCompilationComplete then [Action.restartHook HookKind.compilationComplete]
   else [])
    ++ (if errFlag then
          [Action.emit EventMessage.compileErrors]
            ++ (if cfg.onFailureCommand then [Action.restartHook HookKind.failure]
                else [])
        else
          (if firstTime then
            [Action.emit EventMessage.firstSuccess]
              ++ (if cfg.onFirstSuccessCommand then
                    [Action.restartHook HookKind.firstSuccess]
                  else [])
           else [])
            ++ ([Action.emit EventMessage.success]
              ++ (if cfg.onSuccessCommand then [Action.restartHook HookKind.success]
                  else [])))

/-- The `rl.on('line')` handler, lines 110-152, from the classification on: it
updates the two flags (`firstTime` becomes false exactly when an error-free
completion is processed while it was true, lines 142-143) and produces the
ordered list of observable actions of that line. -/
def processLine (cfg : Config) (s : WatcherState) (c : ClassificationResult) :
    WatcherState × List Action :=
  let errFlag := stepFlag s.compilationErrorSinceStart c
  ({ firstTime := s.firstTime && !(c.compilationComplete && !errFlag),
     compilationErrorSinceStart := errFlag },
   fileActs c ++ startActs cfg c ++
     (if c.compilationComplete then completeActs cfg s.firstTime errFlag else []))

/-- Folds the line handler over a list of classified lines, concatenating the
per-line action traces in input order. -/
def processLines (cfg : Config) (s : WatcherState) :
    List ClassificationResult → WatcherState × List Action
  | [] => (s, [])
  | c :: rest =>
    let r := processLine cfg s c
    let r2 := processLines cfg r.1 rest
    (r2.1, r.2 ++ r2.2)

/-- Number of emissions of message `m` in a trace. -/
def countEmit (m : EventMessage) : List Action → Nat
  | [] => 0
  | Action.emit m2 :: rest => (if m2 = m then 1 else 0) + countEmit m rest
  | Action.restartHook _ :: rest => countEmit m rest

/-- Number of restarts of hook `k` in a trace. -/
def countRestart (k : HookKind) : List Action → Nat
  | [] => 0
  | Action.restartHook k2 :: rest => (if k2 = k then 1 else 0) + countRestart k rest
  | Action.emit _ :: rest => countRestart k rest

/-- The event messages of a trace, in order, restart actions skipped. -/
def emittedMessages : List Action → List EventMessage
  | [] => []
  | Action.emit m :: rest => m :: emittedMessages rest
  | Action.restartHook _ :: rest => emittedMessages rest

/-- Boolean subsequence test: `isSublist pat l` is true exactly when the
elements of `pat` occur in `l` in the same order, not necessarily
contiguously. -/
def isSublist {α : Type} [DecidableEq α] : List α → List α → Bool
  | [], _ => true
  | _ :: _, [] => false
  | a :: l, b :: r => if a = b then isSublist l r else isSublist (a :: l) r

/-- The per-line action traces, in input order, with the state threaded
through. -/
def perLineTraces (cfg : Config) (s : WatcherState) :
    List ClassificationResult → List (List Action)
  | [] => []
  | c :: rest =>
    (processLine cfg s c).2 :: perLineTraces cfg (processLine cfg s c).1 rest

/-- The per-line emitted event lists, in input order. -/
def perLineEvents (cfg : Config) (s : WatcherState)
    (ls : List ClassificationResult) : List (List EventMessage) :=
  (perLineTraces cfg s ls).map emittedMessages

/-- Modelled from the spec: the intended value of `errorSinceStart` after a
list of classified lines — true exactly when some line carrying
`compilationError` has been observed with no strictly later line carrying
`compilationStarted`, i.e. at least one error since the most recent start,
counting the start line's own error marker.  Written from the spec's words to
be compared with the flag the source maintains at line 124. -/
def errorSinceStartSpec : List ClassificationResult → Bool
  | [] => false
  | c :: rest =>
    errorSinceStartSpec rest ||
      (c.compilationError && !(rest.any (fun d => d.compilationStarted)))

/-- The flat string payload of each `Signal` message (lines 194-201). -/
def signalPayload : EventMessage → String
  | EventMessage.started => "started"
  | EventMessage.firstSuccess => "first_success"
  | EventMessage.success => "success"
  | EventMessage.compileErrors => "compile_errors"
  | EventMessage.fileEmitted p => "file_emitted:" ++ p

/-- `Signal.send` (line 195): when `process.send` is a function, the payloads
go out in order; otherwise every send is the no-op `() => { }`, so nothing is
sent and no error is raised. -/
def sendAll (attached : Bool) (msgs : List EventMessage) : List String :=
  if attached then msgs.map signalPayload else []

/-- A JavaScript error value, as far as `buildNodeParams` inspects it. -/
structure JsError where
  code : String
  message : String
deriving DecidableEq

/-- Outcome of module-level startup, lines 85-108. -/
inductive StartupOutcome where
  | exited (status : Nat)
  | thrown (e : JsError)
  | spawned (nodeParams : List String)
deriving DecidableEq

/-- A halt raised inside `buildNodeParams`: either `process.exit(9)` after
`console.error(e.message)` (lines 91-92), or the rethrow of the resolution
error (line 94). -/
inductive StartupHalt where
  | exited (status : Nat)
  | thrown (e : JsError)
deriving DecidableEq

/-- Lines 85-102; `resolveResult` stands for `require.resolve(compiler)`,
which either yields the tsc binary path or throws a `JsError`. -/
def buildNodeParams (allArgs : List String) (maxNodeMem : Option Nat)
    (resolveResult : Except JsError String) : Except StartupHalt (List String) :=
  match resolveResult with
  | Except.error e =>
    if e.code = "MODULE_NOT_FOUND" then Except.error (StartupHalt.exited 9)
    else Except.error (StartupHalt.thrown e)
  | Except.ok tscBin =>
    Except.ok
      ((match maxNodeMem with
        | some m => ["--max_old_space_size=" ++ toString m]
        | none => []) ++ [tscBin] ++ allArgs)

/-- Module-level startup: the spawn of the watched process (line 105) and the
construction of the readline interface and its line handler (lines 106-152)
happen only when `buildNodeParams` returns normally. -/
def startup (allArgs : List String) (maxNodeMem : Option Nat)
    (resolveResult : Except JsError String) : StartupOutcome :=
  match buildNodeParams allArgs maxNodeMem resolveResult with
  | Except.error (StartupHalt.exited n) => StartupOutcome.exited n
  | Except.error (StartupHalt.thrown e) => StartupOutcome.thrown e
  | Except.ok params => StartupOutcome.spawned params

/-- True exactly when startup reached the spawn of the watched process and the
construction of the line handler. -/
def stateMachineConstructed : StartupOutcome → Bool
  | StartupOutcome.spawned _ => true
  | _ => false

/-- Steps of the `nodeCleanup` handler (lines 203-209) and of `killProcesses`
(lines 45-53). -/
inductive CleanupStep where
  | killWatched
  | killHook (k : HookKind)
  | uninstall
  | awaitKills
  | exitProcess
deriving DecidableEq

/-- Ordered steps performed on a termination signal: `tscProcess.kill(signal)`
first (line 204), then `killProcesses(killAll)` starts the five hook kills in
array order — the firstSuccess kill only when `killAll` (lines 46-52) — then
`nodeCleanup.uninstall()` (line 207); once the kill promises all settle,
`process.exit()` (line 205). -/
def cleanupTrace (killAll : Bool) : List CleanupStep :=
  [CleanupStep.killWatched]
    ++ ((if killAll then [CleanupStep.killHook HookKind.firstSuccess] else [])
      ++ [CleanupStep.killHook HookKind.success,
          CleanupStep.killHook HookKind.failure,
          CleanupStep.killHook HookKind.compilationStarted,
          CleanupStep.killHook HookKind.compilationComplete])
    ++ [CleanupStep.uninstall, CleanupStep.awaitKills, CleanupStep.exitProcess]

/-- Delivery of one termination signal: the handler body runs only while the
`nodeCleanup` handler is installed, and the body uninstalls it synchronously,
so a second delivery runs nothing.  Returns the new installed flag and the
steps run by this delivery. -/
def runCleanup (installed : Bool) : Bool × List CleanupStep :=
  if installed then (false, cleanupTrace true) else (installed, [])

/-- Per-invocation state of one asynchronous `runOnXCommand` call (lines
55-83).  Phase 0: about to read the slot's current killer (the argument of
`restart(xKiller, cmd)`).  Phase 1: the awaited `kill(killer)` has settled.
Phase 2: `run(cmd)` has spawned the new hook process.  Phase 3: the returned
killer has been assigned to the slot variable.  Phase 4: settled. -/
structure RestartTask where
  phase : Nat
  localKiller : Option Nat
  spawned : Option Nat
deriving DecidableEq

/-- One hook slot together with the set of live hook processes and the pending
restart invocations; pids are abstract names of spawned hook processes. -/
structure SlotState where
  killer : Option Nat
  alive : List Nat
  nextPid : Nat
  tasks : List RestartTask
deriving DecidableEq

/-- Advance invocation `i` by one phase — one segment between the await points
of the JavaScript call.  The event loop may run segments of different pending
invocations in any interleaved order. -/
def stepTask (g : SlotState) (i : Nat) : SlotState :=
  match g.tasks.get? i with
  | none => g
  | some t =>
    if t.phase = 0 then
      { g with tasks := g.tasks.set i { t with phase := 1, localKiller := g.killer } }
    else if t.phase = 1 then
      { g with
        alive := match t.localKiller with
          | some p => g.alive.erase p
          | none => g.alive,
        tasks := g.tasks.set i { t with phase := 2 } }
    else if t.phase = 2 then
      { g with
        alive := g.alive ++ [g.nextPid],
        nextPid := g.nextPid + 1,
        tasks := g.tasks.set i { t with phase := 3, spawned := some g.nextPid } }
    else if t.phase = 3 then
      { g with killer := t.spawned, tasks := g.tasks.set i { t with phase := 4 } }
    else g

/-- Run a schedule: each entry names the invocation whose next phase runs. -/
def runSchedule (g : SlotState) : List Nat → SlotState
  | [] => g
  | i :: rest => runSchedule (stepTask g i) rest

/-- A slot with no live invocation and `n` fresh restart invocations. -/
def initSlot (n : Nat) : SlotState :=
  { killer := none, alive := [], nextPid := 0,
    tasks := List.replicate n { phase := 0, localKiller := none, spawned := none } }

/-- The schedule that runs invocations `base`, `base + 1`, ... each to
completion before the next begins (no interleaving). -/
def seqSchedule : Nat → Nat → List Nat
  | _, 0 => []
  | base, Nat.succ m => base :: base :: base :: base :: seqSchedule (base + 1) m

/-- The interleaved-start state used to exercise two concurrent restarts of
one slot: one live invocation (pid 7) tracked by the slot, two pending
restart calls. -/
def twoTaskSlot : SlotState :=
  { killer := some 7, alive := [7], nextPid := 8,
    tasks := [{ phase := 0, localKiller := none, spawned := none },
              { phase := 0, localKiller := none, spawned := none }] }

/-- A configuration with all five hook commands set. -/
def cfgAll : Config := ⟨true, true, true, true, true⟩

/-- A line classified as a compilation start, carrying nothing else. -/
def startLine : ClassificationResult := ⟨true, false, false, none⟩

/-- A line classified as a compilation error diagnostic. -/
def errorLine : ClassificationResult := ⟨false, true, false, none⟩

/-- A line classified as a compilation completion, carrying nothing else. -/
def completeLine : ClassificationResult := ⟨false, false, true, none⟩

/-- A line matching no pattern. -/
def plainLine : ClassificationResult := ⟨false, false, false, none⟩

theorem processLine_flag (cfg : Config) (s : WatcherState) (c : ClassificationResult) :
    (processLine cfg s c).1.compilationErrorSinceStart =
      stepFlag s.compilationErrorSinceStart c := rfl

theorem processLine_firstTime (cfg : Config) (s : WatcherState) (c : ClassificationResult) :
    (processLine cfg s c).1.firstTime =
      (s.firstTime && !(c.compilationComplete && !stepFlag s.compilationErrorSinceStart c)) :=
  rfl

theorem processLine_acts (cfg : Config) (s : WatcherState) (c : ClassificationResult) :
    (processLine cfg s c).2 =
      fileActs c ++ startActs cfg c ++
        (if c.compilationComplete then
          completeActs cfg s.firstTime (stepFlag s.compilationErrorSinceStart c)
         else []) := rfl

theorem processLines_cons (cfg : Config) (s : WatcherState) (c : ClassificationResult)
    (rest : List ClassificationResult) :
    processLines cfg s (c :: rest) =
      ((processLines cfg (processLine cfg s c).1 rest).1,
        (processLine cfg s c).2 ++ (processLines cfg (processLine cfg s c).1 rest).2) :=
  rfl

theorem countEmit_append (m : EventMessage) (l1 l2 : List Action) :
    countEmit m (l1 ++ l2) = countEmit m l1 + countEmit m l2 := by
  induction l1 with
  | nil => simp [countEmit]
  | cons a rest ih => cases a <;> simp [countEmit, ih, Nat.add_assoc]

theorem countRestart_append (k : HookKind) (l1 l2 : List Action) :
    countRestart k (l1 ++ l2) = countRestart k l1 + countRestart k l2 := by
  induction l1 with
  | nil => simp [countRestart]
  | cons a rest ih => cases a <;> simp [countRestart, ih, Nat.add_assoc]

theorem emittedMessages_append (l1 l2 : List Action) :
    emittedMessages (l1 ++ l2) = emittedMessages l1 ++ emittedMessages l2 := by
  induction l1 with
  | nil => simp [emittedMessages]
  | cons a rest ih => cases a <;> simp [emittedMessages, ih]

/-- The flag the handler maintains equals the spec's predicate, relativised to
an arbitrary carried-in flag (which matters only while no start has been
observed). -/
theorem processLines_flag_eq (cfg : Config) :
    ∀ (ls : List ClassificationResult) (s : WatcherState),
    (processLines cfg s ls).1.compilationErrorSinceStart =
      (errorSinceStartSpec ls ||
        (s.compilationErrorSinceStart && !(ls.any (fun d => d.compilationStarted)))) := by
  intro ls
  induction ls with
  | nil => intro s; simp [processLines, errorSinceStartSpec]
  | cons c rest ih =>
    intro s
    rw [processLines_cons]
    show (processLines cfg (processLine cfg s c).1 rest).1.compilationErrorSinceStart = _
    rw [ih, processLine_flag]
    simp only [errorSinceStartSpec, stepFlag, List.any_cons]
    cases c.compilationStarted <;> cases c.compilationError <;>
      cases s.compilationErrorSinceStart <;>
      cases hAny : rest.any (fun d => d.compilationStarted) <;>
        simp [hAny]

theorem countEmit_fileActs (m : EventMessage) (c : ClassificationResult)
    (h : ∀ p, m ≠ EventMessage.fileEmitted p) : countEmit m (fileActs c) = 0 := by
  cases hc : c.fileEmitted with
  | none => simp [fileActs, hc, countEmit]
  | some p =>
    simp only [fileActs, hc, countEmit, Nat.add_zero]
    rw [if_neg fun hh => h p hh.symm]

theorem countRestart_fileActs (k : HookKind) (c : ClassificationResult) :
    countRestart k (fileActs c) = 0 := by
  cases hc : c.fileEmitted <;> simp [fileActs, hc, countRestart]

theorem countEmit_startActs (m : EventMessage) (cfg : Config) (c : ClassificationResult)
    (h : m ≠ EventMessage.started) : countEmit m (startActs cfg c) = 0 := by
  cases h1 : c.compilationStarted <;> cases h2 : cfg.onCompilationStarted <;>
    simp [startActs, h1, h2, countEmit, Ne.symm h]

theorem countRestart_startActs (k : HookKind) (cfg : Config) (c : ClassificationResult)
    (h : k ≠ HookKind.compilationStarted) : countRestart k (startActs cfg c) = 0 := by
  cases h1 : c.compilationStarted <;> cases h2 : cfg.onCompilationStarted <;>
    simp [startActs, h1, h2, countRestart, Ne.symm h]

theorem countEmit_fs_completeActs (cfg : Config) (ft e : Bool) :
    countEmit EventMessage.firstSuccess (completeActs cfg ft e) =
      if !e && ft then 1 else 0 := by
  cases e <;> cases ft <;>
    cases h1 : cfg.onCompilationComplete <;> cases h2 : cfg.onFailureCommand <;>
      cases h3 : cfg.onFirstSuccessCommand <;> cases h4 : cfg.onSuccessCommand <;>
        simp [completeActs, h1, h2, h3, h4, countEmit_append, countEmit]

theorem countEmit_s_completeActs (cfg : Config) (ft e : Bool) :
    countEmit EventMessage.success (completeActs cfg ft e) =
      if e then 0 else 1 := by
  cases e <;> cases ft <;>
    cases h1 : cfg.onCompilationComplete <;> cases h2 : cfg.onFailureCommand <;>
      cases h3 : cfg.onFirstSuccessCommand <;> cases h4 : cfg.onSuccessCommand <;>
        simp [completeActs, h1, h2, h3, h4, countEmit_append, countEmit]

theorem countEmit_ce_completeActs (cfg : Config) (ft e : Bool) :
    countEmit EventMessage.compileErrors (completeActs cfg ft e) =
      if e then 1 else 0 := by
  cases e <;> cases ft <;>
    cases h1 : cfg.onCompilationComplete <;> cases h2 : cfg.onFailureCommand <;>
      cases h3 : cfg.onFirstSuccessCommand <;> cases h4 : cfg.onSuccessCommand <;>
        simp [completeActs, h1, h2, h3, h4, countEmit_append, countEmit]

theorem countRestart_f_completeActs (cfg : Config) (ft e : Bool) :
    countRestart HookKind.failure (completeActs cfg ft e) =
      if e && cfg.onFailureCommand then 1 else 0 := by
  cases e <;> cases ft <;>
    cases h1 : cfg.onCompilationComplete <;> cases h2 : cfg.onFailureCommand <;>
      cases h3 : cfg.onFirstSuccessCommand <;> cases h4 : cfg.onSuccessCommand <;>
        simp [completeActs, h1, h2, h3, h4, countRestart_append, countRestart]

theorem countRestart_s_completeActs (cfg : Config) (ft e : Bool) :
    countRestart HookKind.success (completeActs cfg ft e) =
      if !e && cfg.onSuccessCommand then 1 else 0 := by
  cases e <;> cases ft <;>
    cases h1 : cfg.onCompilationComplete <;> cases h2 : cfg.onFailureCommand <;>
      cases h3 : cfg.onFirstSuccessCommand <;> cases h4 : cfg.onSuccessCommand <;>
        simp [completeActs, h1, h2, h3, h4, countRestart_append, countRestart]

theorem countRestart_fs_completeActs (cfg : Config) (ft e : Bool) :
    countRestart HookKind.firstSuccess (completeActs cfg ft e) =
      if !e && ft && cfg.onFirstSuccessCommand then 1 else 0 := by
  cases e <;> cases ft <;>
    cases h1 : cfg.onCompilationComplete <;> cases h2 : cfg.onFailureCommand <;>
      cases h3 : cfg.onFirstSuccessCommand <;> cases h4 : cfg.onSuccessCommand <;>
        simp [completeActs, h1, h2, h3, h4, countRestart_append, countRestart]

theorem countRestart_cc_completeActs (cfg : Config) (ft e : Bool) :
    countRestart HookKind.compilationComplete (completeActs cfg ft e) =
      if cfg.onCompilationComplete then 1 else 0 := by
  cases e <;> cases ft <;>
    cases h1 : cfg.onCompilationComplete <;> cases h2 : cfg.onFailureCommand <;>
      cases h3 : cfg.onFirstSuccessCommand <;> cases h4 : cfg.onSuccessCommand <;>
        simp [completeActs, h1, h2, h3, h4, countRestart_append, countRestart]

theorem countEmit_fs_processLine (cfg : Config) (s : WatcherState) (c : ClassificationResult) :
    countEmit EventMessage.firstSuccess (processLine cfg s c).2 =
      if c.compilationComplete && !stepFlag s.compilationErrorSinceStart c && s.firstTime
      then 1 else 0 := by
  rw [processLine_acts, countEmit_append, countEmit_append,
    countEmit_fileActs _ _ (by intro p hp; cases hp),
    countEmit_startActs _ _ _ (by intro hp; cases hp)]
  cases hcc : c.compilationComplete
  · simp [countEmit]
  · simp [countEmit_fs_completeActs]

theorem countEmit_s_processLine (cfg : Config) (s : WatcherState) (c : ClassificationResult) :
    countEmit EventMessage.success (processLine cfg s c).2 =
      if c.compilationComplete && !stepFlag s.compilationErrorSinceStart c
      then 1 else 0 := by
  rw [processLine_acts, countEmit_append, countEmit_append,
    countEmit_fileActs _ _ (by intro p hp; cases hp),
    countEmit_startActs _ _ _ (by intro hp; cases hp)]
  cases hcc : c.compilationComplete
  · simp [countEmit]
  · cases he : stepFlag s.compilationErrorSinceStart c <;>
      simp [countEmit_s_completeActs, he]

theorem countEmit_ce_processLine (cfg : Config) (s : WatcherState) (c : ClassificationResult) :
    countEmit EventMessage.compileErrors (processLine cfg s c).2 =
      if c.compilationComplete && stepFlag s.compilationErrorSinceStart c
      then 1 else 0 := by
  rw [processLine_acts, countEmit_append, countEmit_append,
    countEmit_fileActs _ _ (by intro p hp; cases hp),
    countEmit_startActs _ _ _ (by intro hp; cases hp)]
  cases hcc : c.compilationComplete
  · simp [countEmit]
  · cases he : stepFlag s.compilationErrorSinceStart c <;>
      simp [countEmit_ce_completeActs, he]

theorem countRestart_fs_processLine (cfg : Config) (s : WatcherState)
    (c : ClassificationResult) :
    countRestart HookKind.firstSuccess (processLine cfg s c).2 =
      if c.compilationComplete && !stepFlag s.compilationErrorSinceStart c && s.firstTime
          && cfg.onFirstSuccessCommand
      then 1 else 0 := by
  rw [processLine_acts, countRestart_append, countRestart_append,
    countRestart_fileActs,
    countRestart_startActs _ _ _ (by intro hp; cases hp)]
  cases hcc : c.compilationComplete
  · simp [countRestart]
  · simp [countRestart_fs_completeActs, Bool.and_assoc]

theorem countRestart_s_processLine (cfg : Config) (s : WatcherState)
    (c : ClassificationResult) :
    countRestart HookKind.success (processLine cfg s c).2 =
      if c.compilationComplete && !stepFlag s.compilationErrorSinceStart c
          && cfg.onSuccessCommand
      then 1 else 0 := by
  rw [processLine_acts, countRestart_append, countRestart_append,
    countRestart_fileActs,
    countRestart_startActs _ _ _ (by intro hp; cases hp)]
  cases hcc : c.compilationComplete
  · simp [countRestart]
  · simp [countRestart_s_completeActs, Bool.and_assoc]

theorem countRestart_f_processLine (cfg : Config) (s : WatcherState)
    (c : ClassificationResult) :
    countRestart HookKind.failure (processLine cfg s c).2 =
      if c.compilationComplete && stepFlag s.compilationErrorSinceStart c
          && cfg.onFailureCommand
      then 1 else 0 := by
  rw [processLine_acts, countRestart_append, countRestart_append,
    countRestart_fileActs,
    countRestart_startActs _ _ _ (by intro hp; cases hp)]
  cases hcc : c.compilationComplete
  · simp [countRestart]
  · simp [countRestart_f_completeActs, Bool.and_assoc]

theorem countRestart_cc_processLine (cfg : Config) (s : WatcherState)
    (c : ClassificationResult) :
    countRestart HookKind.compilationComplete (processLine cfg s c).2 =
      if c.compilationComplete && cfg.onCompilationComplete then 1 else 0 := by
  rw [processLine_acts, countRestart_append, countRestart_append,
    countRestart_fileActs,
    countRestart_startActs _ _ _ (by intro hp; cases hp)]
  cases hcc : c.compilationComplete
  · simp [countRestart]
  · simp [countRestart_cc_completeActs]

theorem countEmit_fs_zero_of_not_firstTime (cfg : Config) :
    ∀ (ls : List ClassificationResult) (s : WatcherState), s.firstTime = false →
    countEmit EventMessage.firstSuccess (processLines cfg s ls).2 = 0 := by
  intro ls
  induction ls with
  | nil => intro s _; simp [processLines, countEmit]
  | cons c rest ih =>
    intro s h
    rw [processLines_cons]
    dsimp only
    rw [countEmit_append, countEmit_fs_processLine,
      ih _ (by rw [processLine_firstTime, h, Bool.false_and])]
    simp [h]

theorem countEmit_fs_eq_min (cfg : Config) :
    ∀ (ls : List ClassificationResult) (s : WatcherState),
    countEmit EventMessage.firstSuccess (processLines cfg s ls).2 =
      if s.firstTime
      then min (countEmit EventMessage.success (processLines cfg s ls).2) 1
      else 0 := by
  intro ls
  induction ls with
  | nil => intro s; cases s.firstTime <;> simp [processLines, countEmit]
  | cons c rest ih =>
    intro s
    rw [processLines_cons]
    dsimp only
    rw [countEmit_append, countEmit_append, countEmit_fs_processLine,
      countEmit_s_processLine]
    cases hb : (c.compilationComplete && !stepFlag s.compilationErrorSinceStart c)
    · rw [ih]
      rw [processLine_firstTime, hb]
      cases s.firstTime <;> simp
    · have hft : (processLine cfg s c).1.firstTime = false := by
        rw [processLine_firstTime, hb]; simp
      cases hf : s.firstTime
      · rw [countEmit_fs_zero_of_not_firstTime cfg rest _ hft]
        simp [hf]
      · rw [countEmit_fs_zero_of_not_firstTime cfg rest _ hft]
        simp [hf]

theorem countRestart_fs_eq (cfg : Config) :
    ∀ (ls : List ClassificationResult) (s : WatcherState),
    countRestart HookKind.firstSuccess (processLines cfg s ls).2 =
      if cfg.onFirstSuccessCommand
      then countEmit EventMessage.firstSuccess (processLines cfg s ls).2
      else 0 := by
  intro ls
  induction ls with
  | nil => intro s; simp [processLines, countEmit, countRestart]
  | cons c rest ih =>
    intro s
    rw [processLines_cons]
    dsimp only
    rw [countRestart_append, countEmit_append, countRestart_fs_processLine,
      countEmit_fs_processLine, ih]
    cases hc : cfg.onFirstSuccessCommand <;> simp [hc]

theorem isSublist_iff {α : Type} [DecidableEq α] :
    ∀ (r t : List α), isSublist t r = true ↔ List.Sublist t r := by
  intro r
  induction r with
  | nil =>
    intro t
    cases t <;> simp [isSublist]
  | cons b r ih =>
    intro t
    cases t with
    | nil => simp [isSublist]
    | cons a t =>
      by_cases hab : a = b
      · subst hab
        have hred : isSublist (a :: t) (a :: r) = isSublist t r := by
          simp [isSublist]
        rw [hred, ih]
        constructor
        · intro h; exact h.cons₂ a
        · intro h; exact List.sublist_of_cons_sublist_cons h
      · have hred : isSublist (a :: t) (b :: r) = isSublist (a :: t) r := by
          simp [isSublist, hab]
        rw [hred, ih]
        constructor
        · intro h; exact h.cons b
        · intro h
          cases h with
          | cons _ h => exact h
          | cons₂ => exact absurd rfl hab

/-- C2: after processing any prefix of the input, `errorSinceStart` is true iff
at least one line with `compilationError` has been observed since the most
recent line with `compilationStarted` (that start line included); a start line
resets the flag to its own `compilationError`, and a non-start line never
clears a set flag. -/
theorem C2_errorSinceStart_invariant :
    (∀ (cfg : Config) (ls : List ClassificationResult),
      (processLines cfg WatcherState.init ls).1.compilationErrorSinceStart =
        errorSinceStartSpec ls) ∧
    (∀ (cfg : Config) (s : WatcherState) (c : ClassificationResult),
      c.compilationStarted = true →
      (processLine cfg s c).1.compilationErrorSinceStart = c.compilationError) ∧
    (∀ (cfg : Config) (s : WatcherState) (c : ClassificationResult),
      c.compilationStarted = false → s.compilationErrorSinceStart = true →
      (processLine cfg s c).1.compilationErrorSinceStart = true) := by
  refine ⟨?_, ?_, ?_⟩
  · intro cfg ls
    rw [processLines_flag_eq]
    simp [WatcherState.init]
  · intro cfg s c h
    rw [processLine_flag]
    simp [stepFlag, h]
  · intro cfg s c h1 h2
    rw [processLine_flag]
    simp [stepFlag, h1, h2]

/-- Witness for C2: a start line resets a set flag to false, and an error-free
non-start line keeps a set flag set. -/
theorem C2_errorSinceStart_invariant_witness :
    (processLine cfgAll ⟨true, true⟩ startLine).1.compilationErrorSinceStart = false ∧
    (processLine cfgAll ⟨true, true⟩ plainLine).1.compilationErrorSinceStart = true :=
  ⟨C2_errorSinceStart_invariant.2.1 cfgAll ⟨true, true⟩ startLine rfl,
   C2_errorSinceStart_invariant.2.2 cfgAll ⟨true, true⟩ plainLine rfl rfl⟩

/-- C1: on every line whose classification has `compilationComplete`, with the
relevant hook commands configured, exactly one outcome is produced.  If
`errorSinceStart` (the flag updated at line 124) is true there, exactly one
`compile_errors` event is emitted, the failure hook is restarted once and no
`success` event is emitted; otherwise exactly one `success` event is emitted,
the success hook is restarted once and no `compile_errors` event is emitted.
In both cases the compilationComplete hook is restarted once, before the
outcome event and the outcome hook. -/
theorem C1_completion_outcome (cfg : Config) (s : WatcherState) (c : ClassificationResult)
    (hc : c.compilationComplete = true) (hcc : cfg.onCompilationComplete = true)
    (hfk : cfg.onFailureCommand = true) (hsk : cfg.onSuccessCommand = true) :
    (stepFlag s.compilationErrorSinceStart c = true →
      countEmit EventMessage.compileErrors (processLine cfg s c).2 = 1 ∧
      countRestart HookKind.failure (processLine cfg s c).2 = 1 ∧
      countEmit EventMessage.success (processLine cfg s c).2 = 0 ∧
      countRestart HookKind.compilationComplete (processLine cfg s c).2 = 1 ∧
      isSublist [Action.restartHook HookKind.compilationComplete,
        Action.emit EventMessage.compileErrors,
        Action.restartHook HookKind.failure] (processLine cfg s c).2 = true) ∧
    (stepFlag s.compilationErrorSinceStart c = false →
      countEmit EventMessage.success (processLine cfg s c).2 = 1 ∧
      countRestart HookKind.success (processLine cfg s c).2 = 1 ∧
      countEmit EventMessage.compileErrors (processLine cfg s c).2 = 0 ∧
      countRestart HookKind.compilationComplete (processLine cfg s c).2 = 1 ∧
      isSublist [Action.restartHook HookKind.compilationComplete,
        Action.emit EventMessage.success,
        Action.restartHook HookKind.success] (processLine cfg s c).2 = true) := by
  constructor
  · intro he
    refine ⟨?_, ?_, ?_, ?_, ?_⟩
    · rw [countEmit_ce_processLine, hc, he]; simp
    · rw [countRestart_f_processLine, hc, he, hfk]; simp
    · rw [countEmit_s_processLine, hc, he]; simp
    · rw [countRestart_cc_processLine, hc, hcc]; simp
    · rw [isSublist_iff, processLine_acts, hc, if_pos rfl]
      have hca : completeActs cfg s.firstTime (stepFlag s.compilationErrorSinceStart c) =
          [Action.restartHook HookKind.compilationComplete,
            Action.emit EventMessage.compileErrors,
            Action.restartHook HookKind.failure] := by
        simp [completeActs, he, hcc, hfk]
      rw [hca]
      exact List.sublist_append_right _ _
  · intro he
    refine ⟨?_, ?_, ?_, ?_, ?_⟩
    · rw [countEmit_s_processLine, hc, he]; simp
    · rw [countRestart_s_processLine, hc, he, hsk]; simp
    · rw [countEmit_ce_processLine, hc, he]; simp
    · rw [countRestart_cc_processLine, hc, hcc]; simp
    · rw [isSublist_iff, processLine_acts, hc, if_pos rfl]
      have hca : completeActs cfg s.firstTime (stepFlag s.compilationErrorSinceStart c) =
          [Action.restartHook HookKind.compilationComplete] ++
            (((if s.firstTime then
                [Action.emit EventMessage.firstSuccess]
                  ++ (if cfg.onFirstSuccessCommand then
                        [Action.restartHook HookKind.firstSuccess]
                      else [])
               else [])) ++
              [Action.emit EventMessage.success, Action.restartHook HookKind.success]) := by
        simp [completeActs, he, hcc, hsk]
      rw [hca]
      refine List.Sublist.trans ?_ (List.sublist_append_right _ _)
      show List.Sublist
        ([Action.restartHook HookKind.compilationComplete] ++
          [Action.emit EventMessage.success, Action.restartHook HookKind.success]) _
      exact List.Sublist.append (List.Sublist.refl _) (List.sublist_append_right _ _)

/-- Witness for C1: from the initial state a bare completion line is a success
with the success hook restarted once; with the error flag set it yields exactly
one `compile_errors` emission. -/
theorem C1_completion_outcome_witness :
    countEmit EventMessage.success (processLine cfgAll WatcherState.init completeLine).2 = 1 ∧
    countEmit EventMessage.compileErrors (processLine cfgAll ⟨true, true⟩ completeLine).2 = 1 :=
  ⟨((C1_completion_outcome cfgAll WatcherState.init completeLine rfl rfl rfl rfl).2 rfl).1,
   ((C1_completion_outcome cfgAll ⟨true, true⟩ completeLine rfl rfl rfl rfl).1 rfl).1⟩

/-- C10: on a line carrying both `compilationStarted` and `compilationComplete`,
the flag is first reset to the line's own `compilationError` (line 124 runs
before the branches), the start is handled before the completion (the
`started` event precedes the compilationComplete hook restart, which precedes
the outcome event), and the completion outcome depends only on the line's own
error flag — the flag accumulated before the line never produces a failure. -/
theorem C10_start_complete_line (cfg : Config) (s : WatcherState) (c : ClassificationResult)
    (hst : c.compilationStarted = true) (hc : c.compilationComplete = true)
    (hcc : cfg.onCompilationComplete = true) :
    (processLine cfg s c).1.compilationErrorSinceStart = c.compilationError ∧
    countEmit EventMessage.compileErrors (processLine cfg s c).2 =
      (if c.compilationError then 1 else 0) ∧
    countEmit EventMessage.success (processLine cfg s c).2 =
      (if c.compilationError then 0 else 1) ∧
    isSublist [Action.emit EventMessage.started,
      Action.restartHook HookKind.compilationComplete,
      Action.emit (if c.compilationError then EventMessage.compileErrors
                   else EventMessage.success)]
      (processLine cfg s c).2 = true := by
  have hsf : stepFlag s.compilationErrorSinceStart c = c.compilationError := by
    simp [stepFlag, hst]
  refine ⟨?_, ?_, ?_, ?_⟩
  · rw [processLine_flag, hsf]
  · rw [countEmit_ce_processLine, hc, hsf]
    cases c.compilationError <;> simp
  · rw [countEmit_s_processLine, hc, hsf]
    cases c.compilationError <;> simp
  · rw [isSublist_iff, processLine_acts, hc, if_pos rfl, hsf]
    have hsa : startActs cfg c =
        (if cfg.onCompilationStarted then [Action.restartHook HookKind.compilationStarted]
         else []) ++ [Action.emit EventMessage.started] := by
      simp [startActs, hst]
    rw [hsa, List.append_assoc, List.append_assoc]
    refine List.Sublist.trans ?_ (List.sublist_append_right _ _)
    refine List.Sublist.trans ?_ (List.sublist_append_right _ _)
    cases he : c.compilationError
    · show List.Sublist ([Action.emit EventMessage.started] ++
        [Action.restartHook HookKind.compilationComplete, Action.emit EventMessage.success]) _
      refine List.Sublist.append (List.Sublist.refl _) ?_
      have hca : completeActs cfg s.firstTime false =
          [Action.restartHook HookKind.compilationComplete] ++
            ((if s.firstTime then
                [Action.emit EventMessage.firstSuccess]
                  ++ (if cfg.onFirstSuccessCommand then
                        [Action.restartHook HookKind.firstSuccess]
                      else [])
              else []) ++
              ([Action.emit EventMessage.success]
                ++ (if cfg.onSuccessCommand then [Action.restartHook HookKind.success]
                    else []))) := by
        simp [completeActs, hcc]
      rw [hca]
      show List.Sublist ([Action.restartHook HookKind.compilationComplete] ++
        [Action.emit EventMessage.success]) _
      refine List.Sublist.append (List.Sublist.refl _) ?_
      refine List.Sublist.trans ?_ (List.sublist_append_right _ _)
      exact List.sublist_append_left _ _
    · show List.Sublist ([Action.emit EventMessage.started] ++
        [Action.restartHook HookKind.compilationComplete,
          Action.emit EventMessage.compileErrors]) _
      refine List.Sublist.append (List.Sublist.refl _) ?_
      have hca : completeActs cfg s.firstTime true =
          [Action.restartHook HookKind.compilationComplete] ++
            ([Action.emit EventMessage.compileErrors]
              ++ (if cfg.onFailureCommand then [Action.restartHook HookKind.failure]
                  else [])) := by
        simp [completeActs, hcc]
      rw [hca]
      show List.Sublist ([Action.restartHook HookKind.compilationComplete] ++
        [Action.emit EventMessage.compileErrors]) _
      exact List.Sublist.append (List.Sublist.refl _) (List.sublist_append_left _ _)

/-- Witness for C10: with the error flag carried over from a failed previous
run, a line carrying both markers and no error of its own is still reported as
a success. -/
theorem C10_start_complete_line_witness :
    countEmit EventMessage.success
      (processLine cfgAll ⟨false, true⟩ ⟨true, false, true, none⟩).2 = 1 :=
  (C10_start_complete_line cfgAll ⟨false, true⟩ ⟨true, false, true, none⟩ rfl rfl rfl).2.2.1

/-- C3: over any input line sequence, `first_success` is emitted exactly once
if any error-free completion occurs and never otherwise (so at most once over
the process lifetime, later error-free completions producing only `success`),
and the firstSuccess hook is restarted exactly as often as `first_success` is
emitted when its command is configured, hence at most once. -/
theorem C3_first_success_at_most_once (cfg : Config) (ls : List ClassificationResult) :
    countEmit EventMessage.firstSuccess (processLines cfg WatcherState.init ls).2 =
      min (countEmit EventMessage.success (processLines cfg WatcherState.init ls).2) 1 ∧
    countRestart HookKind.firstSuccess (processLines cfg WatcherState.init ls).2 =
      (if cfg.onFirstSuccessCommand
       then countEmit EventMessage.firstSuccess (processLines cfg WatcherState.init ls).2
       else 0) ∧
    countRestart HookKind.firstSuccess (processLines cfg WatcherState.init ls).2 ≤ 1 := by
  have h1 := countEmit_fs_eq_min cfg ls WatcherState.init
  have h2 := countRestart_fs_eq cfg ls WatcherState.init
  rw [show WatcherState.init.firstTime = true from rfl] at h1
  simp only [if_true] at h1
  refine ⟨h1, h2, ?_⟩
  rw [h2, h1]
  cases cfg.onFirstSuccessCommand <;> simp

/-- C5: a `compilationComplete` line with no start marker is processed as a
normal completion against whatever `errorSinceStart` currently holds, and from
the initial state (no errors observed yet) a first mid-stream completion is
reported as a success — one `success` event, the success hook restarted — not
ignored and not an error. -/
theorem C5_complete_without_start (cfg : Config) (s : WatcherState) (c : ClassificationResult)
    (hc : c.compilationComplete = true) (hst : c.compilationStarted = false)
    (he : c.compilationError = false) :
    (countEmit EventMessage.compileErrors (processLine cfg s c).2 =
      if s.compilationErrorSinceStart then 1 else 0) ∧
    (countEmit EventMessage.success (processLine cfg s c).2 =
      if s.compilationErrorSinceStart then 0 else 1) ∧
    (s = WatcherState.init →
      countEmit EventMessage.success (processLine cfg s c).2 = 1 ∧
      countEmit EventMessage.compileErrors (processLine cfg s c).2 = 0 ∧
      (cfg.onSuccessCommand = true →
        countRestart HookKind.success (processLine cfg s c).2 = 1)) := by
  have hsf : stepFlag s.compilationErrorSinceStart c = s.compilationErrorSinceStart := by
    simp [stepFlag, hst, he]
  refine ⟨?_, ?_, ?_⟩
  · rw [countEmit_ce_processLine, hc, hsf]
    cases s.compilationErrorSinceStart <;> simp
  · rw [countEmit_s_processLine, hc, hsf]
    cases s.compilationErrorSinceStart <;> simp
  · intro hs
    subst hs
    refine ⟨?_, ?_, ?_⟩
    · rw [countEmit_s_processLine, hc, hsf]; rfl
    · rw [countEmit_ce_processLine, hc, hsf]; rfl
    · intro hsk
      rw [countRestart_s_processLine, hc, hsf, hsk]; rfl

/-- Witness for C5: a bare completion line processed from the initial state
emits one `success` and restarts the success hook once. -/
theorem C5_complete_without_start_witness :
    countEmit EventMessage.success
        (processLine cfgAll WatcherState.init completeLine).2 = 1 ∧
    countRestart HookKind.success
        (processLine cfgAll WatcherState.init completeLine).2 = 1 :=
  ⟨((C5_complete_without_start cfgAll WatcherState.init completeLine rfl rfl rfl).2.2 rfl).1,
   ((C5_complete_without_start cfgAll WatcherState.init completeLine rfl rfl rfl).2.2
      rfl).2.2 rfl⟩

theorem processLines_acts_eq_join (cfg : Config) :
    ∀ (ls : List ClassificationResult) (s : WatcherState),
    (processLines cfg s ls).2 = (perLineTraces cfg s ls).join := by
  intro ls
  induction ls with
  | nil => intro s; simp [processLines, perLineTraces]
  | cons c rest ih =>
    intro s
    rw [processLines_cons]
    simp [perLineTraces, ih]

theorem emittedMessages_join :
    ∀ (L : List (List Action)),
    emittedMessages L.join = (L.map emittedMessages).join := by
  intro L
  induction L with
  | nil => simp [emittedMessages]
  | cons t L ih => simp [emittedMessages_append, ih]

theorem join_eq_filterMap_head {α : Type} :
    ∀ (L : List (List α)), (∀ t ∈ L, t.length ≤ 1) →
    L.join = L.filterMap List.head? := by
  intro L
  induction L with
  | nil => intro _; simp
  | cons t L ih =>
    intro h
    have ht := h t (List.mem_cons_self t L)
    have hrest := ih fun u hu => h u (List.mem_cons_of_mem t hu)
    cases t with
    | nil => simpa using hrest
    | cons a t2 =>
      cases t2 with
      | nil => simpa using hrest
      | cons b t3 => simp at ht

/-- C7: when each line produces at most one event, the emitted event sequence
is exactly the order-preserving per-line sequence — the event of an earlier
line precedes that of a later line, with no reordering, batching or
deduplication, and event-free lines are skipped. -/
theorem C7_event_order (cfg : Config) (s : WatcherState) (ls : List ClassificationResult)
    (h : ∀ t ∈ perLineEvents cfg s ls, t.length ≤ 1) :
    emittedMessages (processLines cfg s ls).2 =
      (perLineEvents cfg s ls).filterMap List.head? := by
  have hj : emittedMessages (processLines cfg s ls).2 = (perLineEvents cfg s ls).join := by
    rw [processLines_acts_eq_join, emittedMessages_join]
    rfl
  rw [hj]
  exact join_eq_filterMap_head _ h

/-- Witness for C7: an error line (no event), a completion (one event) and a
plain line (no event) emit exactly the one `compile_errors` message. -/
theorem C7_event_order_witness :
    emittedMessages
        (processLines cfgAll WatcherState.init [errorLine, completeLine, plainLine]).2 =
      (perLineEvents cfgAll WatcherState.init
        [errorLine, completeLine, plainLine]).filterMap List.head? :=
  C7_event_order cfgAll WatcherState.init [errorLine, completeLine, plainLine] (by decide)

/-- C9: every payload sent while a channel is attached is one of the five flat
strings `started`, `first_success`, `success`, `compile_errors` or
`file_emitted:` followed by a path; with no channel attached every send is a
silent no-op producing nothing. -/
theorem C9_payload_shapes :
    (∀ msgs : List EventMessage, sendAll false msgs = []) ∧
    (∀ (cfg : Config) (s : WatcherState) (ls : List ClassificationResult) (m : String),
      m ∈ sendAll true (emittedMessages (processLines cfg s ls).2) →
      m = "started" ∨ m = "first_success" ∨ m = "success" ∨ m = "compile_errors" ∨
        ∃ p, m = "file_emitted:" ++ p) := by
  constructor
  · intro msgs; simp [sendAll]
  · intro cfg s ls m hm
    simp only [sendAll, if_pos rfl] at hm
    rcases List.mem_map.mp hm with ⟨ev, _, rfl⟩
    cases ev with
    | started => exact Or.inl rfl
    | firstSuccess => exact Or.inr (Or.inl rfl)
    | success => exact Or.inr (Or.inr (Or.inl rfl))
    | compileErrors => exact Or.inr (Or.inr (Or.inr (Or.inl rfl)))
    | fileEmitted p => exact Or.inr (Or.inr (Or.inr (Or.inr ⟨p, rfl⟩)))

/-- Witness for C9: the detached channel sends nothing, and the first payload
of a bare completion processed from the initial state has one of the five
shapes. -/
theorem C9_payload_shapes_witness :
    sendAll false [EventMessage.success] = [] ∧
    ("first_success" = "started" ∨ "first_success" = "first_success" ∨
      "first_success" = "success" ∨ "first_success" = "compile_errors" ∨
      ∃ p, "first_success" = "file_emitted:" ++ p) :=
  ⟨C9_payload_shapes.1 [EventMessage.success],
   C9_payload_shapes.2 cfgAll WatcherState.init [completeLine] "first_success" (by decide)⟩

/-- C8 counterexample: a resolution failure whose code is not
`MODULE_NOT_FOUND` is rethrown (line 94) — startup halts as an uncaught throw,
not with the distinct status 9, refuting both the claimed exit status for every
resolution failure and the claim that no other condition halts startup. -/
theorem C8_counterexample :
    startup [] none (Except.error ⟨"ERR_UNSUPPORTED_DIR_IMPORT", "boom"⟩) ≠
      StartupOutcome.exited 9 ∧
    startup [] none (Except.error ⟨"ERR_UNSUPPORTED_DIR_IMPORT", "boom"⟩) =
      StartupOutcome.thrown ⟨"ERR_UNSUPPORTED_DIR_IMPORT", "boom"⟩ ∧
    stateMachineConstructed
      (startup [] none (Except.error ⟨"ERR_UNSUPPORTED_DIR_IMPORT", "boom"⟩)) = false := by
  refine ⟨by decide, rfl, rfl⟩

/-- C8 amended: a `MODULE_NOT_FOUND` resolution failure is reported and exits
with the distinct non-zero status 9 before the watched process is spawned and
before the line handler exists; any other resolution failure is rethrown —
also halting startup before the spawn, but not via the distinct status; a
successful resolution always reaches the spawn. -/
theorem C8_startup_halt (allArgs : List String) (maxNodeMem : Option Nat)
    (resolveResult : Except JsError String) :
    (∀ e, resolveResult = Except.error e → e.code = "MODULE_NOT_FOUND" →
      startup allArgs maxNodeMem resolveResult = StartupOutcome.exited 9 ∧
      stateMachineConstructed (startup allArgs maxNodeMem resolveResult) = false) ∧
    (∀ e, resolveResult = Except.error e → e.code ≠ "MODULE_NOT_FOUND" →
      startup allArgs maxNodeMem resolveResult = StartupOutcome.thrown e ∧
      stateMachineConstructed (startup allArgs maxNodeMem resolveResult) = false) ∧
    (∀ bin, resolveResult = Except.ok bin →
      stateMachineConstructed (startup allArgs maxNodeMem resolveResult) = true) := by
  refine ⟨?_, ?_, ?_⟩
  · intro e he hcode
    subst he
    simp [startup, buildNodeParams, hcode, stateMachineConstructed]
  · intro e he hcode
    subst he
    simp [startup, buildNodeParams, hcode, stateMachineConstructed]
  · intro bin hb
    subst hb
    simp [startup, buildNodeParams, stateMachineConstructed]

/-- Witness for C8 amended: a `MODULE_NOT_FOUND` failure exits with status 9. -/
theorem C8_startup_halt_witness :
    startup [] none (Except.error ⟨"MODULE_NOT_FOUND", "Cannot find module"⟩) =
      StartupOutcome.exited 9 :=
  ((C8_startup_halt [] none (Except.error ⟨"MODULE_NOT_FOUND", "Cannot find module"⟩)).1
    ⟨"MODULE_NOT_FOUND", "Cannot find module"⟩ rfl rfl).1

/-- C6 counterexample: the claim sequences the killAll of the hook slots
before the termination of the watched process; in the handler the watched
process is killed first (line 204), before every hook kill, so no hook kill
ever precedes it. -/
theorem C6_counterexample :
    isSublist [CleanupStep.killHook HookKind.success, CleanupStep.killWatched]
      (cleanupTrace true) = false ∧
    (cleanupTrace true).head? = some CleanupStep.killWatched := by decide

/-- C6 amended: on a termination signal the handler first kills the watched
process, then triggers killAll with includeFirstSuccess, starting the kills of
all five hook slots, uninstalls itself synchronously, and exits only after all
hook kills settle; exit is the last step and happens once, and a second signal
delivery runs nothing. -/
theorem C6_shutdown_sequence :
    (runCleanup true).1 = false ∧
    (runCleanup true).2 = cleanupTrace true ∧
    isSublist [CleanupStep.killWatched,
      CleanupStep.killHook HookKind.firstSuccess,
      CleanupStep.killHook HookKind.success,
      CleanupStep.killHook HookKind.failure,
      CleanupStep.killHook HookKind.compilationStarted,
      CleanupStep.killHook HookKind.compilationComplete,
      CleanupStep.awaitKills,
      CleanupStep.exitProcess] (cleanupTrace true) = true ∧
    (cleanupTrace true).getLast? = some CleanupStep.exitProcess ∧
    (cleanupTrace true).count CleanupStep.exitProcess = 1 ∧
    isSublist [CleanupStep.uninstall, CleanupStep.awaitKills, CleanupStep.exitProcess]
      (cleanupTrace true) = true ∧
    (runCleanup (runCleanup true).1).2 = [] := by decide

theorem get?_set_self {α : Type} :
    ∀ (l : List α) (i : Nat) (a : α), i < l.length → (l.set i a).get? i = some a := by
  intro l
  induction l with
  | nil => intro i a h; simp at h
  | cons b l ih =>
    intro i a h
    cases i with
    | zero => rfl
    | succ j =>
      show (l.set j a).get? j = some a
      exact ih j a (by simpa using h)

theorem get?_set_ne {α : Type} :
    ∀ (l : List α) (i j : Nat) (a : α), i ≠ j → (l.set i a).get? j = l.get? j := by
  intro l
  induction l with
  | nil => intro i j a _; simp
  | cons b l ih =>
    intro i j a hij
    cases i with
    | zero =>
      cases j with
      | zero => exact absurd rfl hij
      | succ k => rfl
    | succ i2 =>
      cases j with
      | zero => rfl
      | succ k =>
        show (l.set i2 a).get? k = l.get? k
        exact ih i2 k a (by omega)

theorem get?_replicate {α : Type} (a : α) :
    ∀ (n j : Nat), j < n → (List.replicate n a).get? j = some a := by
  intro n
  induction n with
  | zero => intro j h; exact absurd h (Nat.not_lt_zero j)
  | succ m ih =>
    intro j h
    cases j with
    | zero => rfl
    | succ k => exact ih k (by omega)

theorem stepTask_four (g : SlotState) (i : Nat)
    (ht : g.tasks.get? i = some ⟨0, none, none⟩)
    (hc : g.alive = g.killer.toList) :
    stepTask (stepTask (stepTask (stepTask g i) i) i) i =
      { killer := some g.nextPid, alive := [g.nextPid], nextPid := g.nextPid + 1,
        tasks := g.tasks.set i ⟨4, g.killer, some g.nextPid⟩ } := by
  have hlen : i < g.tasks.length := by
    by_contra hlt
    rw [List.get?_eq_none.mpr (by omega)] at ht
    cases ht
  have h1 : stepTask g i = { g with tasks := g.tasks.set i ⟨1, g.killer, none⟩ } := by
    simp only [stepTask]
    rw [ht]
    simp
  have hg1t : (g.tasks.set i ⟨1, g.killer, none⟩).get? i = some ⟨1, g.killer, none⟩ :=
    get?_set_self _ _ _ hlen
  have h2 : stepTask { g with tasks := g.tasks.set i ⟨1, g.killer, none⟩ } i =
      { g with alive := [], tasks := g.tasks.set i ⟨2, g.killer, none⟩ } := by
    simp only [stepTask, hg1t]
    cases hk : g.killer with
    | none =>
      simp [List.set_set, hc, hk, Option.toList]
    | some p =>
      simp [List.set_set, hc, hk, Option.toList]
  have hg2t : (g.tasks.set i ⟨2, g.killer, none⟩).get? i = some ⟨2, g.killer, none⟩ :=
    get?_set_self _ _ _ hlen
  have h3 : stepTask { g with alive := [], tasks := g.tasks.set i ⟨2, g.killer, none⟩ } i =
      { g with
        alive := [g.nextPid],
        nextPid := g.nextPid + 1,
        tasks := g.tasks.set i ⟨3, g.killer, some g.nextPid⟩ } := by
    simp only [stepTask, hg2t]
    simp [List.set_set]
  have hg3t : (g.tasks.set i ⟨3, g.killer, some g.nextPid⟩).get? i =
      some ⟨3, g.killer, some g.nextPid⟩ :=
    get?_set_self _ _ _ hlen
  have h4 : stepTask
      { g with
        alive := [g.nextPid],
        nextPid := g.nextPid + 1,
        tasks := g.tasks.set i ⟨3, g.killer, some g.nextPid⟩ } i =
      { killer := some g.nextPid, alive := [g.nextPid], nextPid := g.nextPid + 1,
        tasks := g.tasks.set i ⟨4, g.killer, some g.nextPid⟩ } := by
    simp only [stepTask, hg3t]
    simp [List.set_set]
  rw [h1, h2, h3, h4]

theorem seq_keeps_consistent :
    ∀ (m base : Nat) (g : SlotState),
      g.alive = g.killer.toList →
      (∀ j, base ≤ j → j < base + m → g.tasks.get? j = some ⟨0, none, none⟩) →
      (runSchedule g (seqSchedule base m)).alive =
        (runSchedule g (seqSchedule base m)).killer.toList := by
  intro m
  induction m with
  | zero =>
    intro base g hcons _
    simpa [seqSchedule, runSchedule] using hcons
  | succ m ih =>
    intro base g hcons htasks
    have hbase := htasks base (Nat.le_refl base) (by omega)
    have h4 := stepTask_four g base hbase hcons
    have hrun : runSchedule g (seqSchedule base (m + 1)) =
        runSchedule (stepTask (stepTask (stepTask (stepTask g base) base) base) base)
          (seqSchedule (base + 1) m) := rfl
    rw [hrun, h4]
    apply ih
    · rfl
    · intro j hj1 hj2
      have hne : base ≠ j := by omega
      show (g.tasks.set base ⟨4, g.killer, some g.nextPid⟩).get? j = some ⟨0, none, none⟩
      rw [get?_set_ne _ _ _ _ hne]
      exact htasks j (by omega) (by omega)

/-- C4 counterexample: two rapid triggers of the same hook slot, interleaved
exactly at the await points the code has (both invocations read the slot's
killer before either assigns a new one), both settle, yet two hook processes
are left alive — refuting the claim that the kill+spawn of concurrent restarts
never interleave and that N rapid triggers leave exactly one live
invocation. -/
theorem C4_counterexample :
    (runSchedule twoTaskSlot [0, 0, 1, 1, 0, 0, 1, 1]).alive.length = 2 ∧
    (∀ t ∈ (runSchedule twoTaskSlot [0, 0, 1, 1, 0, 0, 1, 1]).tasks, t.phase = 4) := by
  decide

/-- C4 amended: each restart completes its kill before its own spawn, and when
restarts of a slot are not interleaved — each invocation runs to completion
before the next begins — the slot stays consistent (the live processes are
exactly those the slot's killer tracks) and at most one invocation is alive
after each settles; the code, however, does not serialize concurrent restarts
of one slot, so interleaved triggers can leave several live invocations. -/
theorem C4_sequential_restarts (n k : Nat) (hk : k ≤ n) :
    (runSchedule (initSlot n) (seqSchedule 0 k)).alive =
      (runSchedule (initSlot n) (seqSchedule 0 k)).killer.toList ∧
    (runSchedule (initSlot n) (seqSchedule 0 k)).alive.length ≤ 1 := by
  have htasks : ∀ j, 0 ≤ j → j < 0 + k →
      (initSlot n).tasks.get? j = some ⟨0, none, none⟩ := by
    intro j _ hj2
    show (List.replicate n
      ({ phase := 0, localKiller := none, spawned := none } : RestartTask)).get? j = _
    exact get?_replicate _ n j (by omega)
  have h := seq_keeps_consistent k 0 (initSlot n) rfl htasks
  refine ⟨h, ?_⟩
  rw [h]
  cases (runSchedule (initSlot n) (seqSchedule 0 k)).killer <;> simp

/-- Witness for C4 amended: two sequential restarts of a two-invocation slot
leave at most one live process. -/
theorem C4_sequential_restarts_witness :
    (runSchedule (initSlot 2) (seqSchedule 0 2)).alive.length ≤ 1 :=
  (C4_sequential_restarts 2 2 (by decide)).2

end TscWatch
